import Mathlib

/-!
Shallow embedding of the WebRTCam media bridge (src/modules/media_pipeline.py)
and USB gadget lifecycle (src/modules/usb_gadget.py), together with theorems
settling the frozen claims about them.

Machine reals (Python floats) are modelled as exact rationals; timestamps are
rationals.  Python functions that catch their own exceptions and report a
boolean are modelled as total Lean functions returning `Bool` (so "never
raises" is captured by totality of the embedding).
-/

/-- The configuration attributes of `src/config.py` that the modelled code
reads.  Default values mirror the `Config` class defaults. -/
structure Config where
  PIPELINE_BUFFER_SIZE : Nat := 5
  AUDIO_ENABLED : Bool := true
  UVC_DEVICE_NAME : String := "WebRTCam Video"
deriving DecidableEq

/-- A decoded media sample sitting in an ingestion queue.  `convertOk` models
whether the conversion/encode step for this sample succeeds, and `packets`
the encoded packets the encoder produces from it (opaque byte payloads are
modelled as natural numbers). -/
structure Frame where
  data : Nat := 0
  convertOk : Bool := true
  packets : List Nat := []
deriving DecidableEq

/-- `MediaPipeline.video_stats` dictionary. -/
structure VideoStats where
  frames_received : Nat
  frames_dropped : Nat
  last_frame_time : ℚ
  current_fps : ℚ
deriving DecidableEq

/-- `MediaPipeline.audio_stats` dictionary. -/
structure AudioStats where
  samples_received : Nat
  samples_dropped : Nat
  last_sample_time : ℚ
deriving DecidableEq

/-- State of `MediaPipeline` (src/modules/media_pipeline.py).  Tracks are
identified by opaque handles (`Nat`).  `asyncio` tasks are modelled by ids:
`video_task`/`audio_task` hold the last created task id (as the Python
attributes hold task objects), `live_tasks` the ids of tasks created and not
yet cancelled, and `next_task` a fresh-id counter. -/
@[ext] structure MediaPipeline where
  config : Config
  running : Bool
  video_track : Option Nat
  video_frame_queue : List Frame
  video_stats : VideoStats
  audio_track : Option Nat
  audio_sample_queue : List Frame
  audio_stats : AudioStats
  video_task : Option Nat
  audio_task : Option Nat
  live_tasks : List Nat
  next_task : Nat
deriving DecidableEq

/-- `MediaPipeline.__init__`. -/
def MediaPipeline.init (config : Config) : MediaPipeline where
  config := config
  running := false
  video_track := none
  video_frame_queue := []
  video_stats := { frames_received := 0, frames_dropped := 0, last_frame_time := 0, current_fps := 0 }
  audio_track := none
  audio_sample_queue := []
  audio_stats := { samples_received := 0, samples_dropped := 0, last_sample_time := 0 }
  video_task := none
  audio_task := none
  live_tasks := []
  next_task := 0

/-- The `on_frame` callback registered by `MediaPipeline.add_video_track`
(lines 152-173): drop when the queue is full, else enqueue, bump
`frames_received`, and update the smoothed fps.  `now` is `time.time()` at
the arrival. -/
def MediaPipeline.video_on_frame (p : MediaPipeline) (now : ℚ) (frame : Frame) : MediaPipeline :=
  if p.config.PIPELINE_BUFFER_SIZE ≤ p.video_frame_queue.length then
    { p with video_stats := { p.video_stats with
        frames_dropped := p.video_stats.frames_dropped + 1 } }
  else
    let s := p.video_stats
    let dt : ℚ := if 0 < s.last_frame_time then now - s.last_frame_time else 1
    let new_fps : ℚ := if 0 < dt then 1 / dt else 0
    let fps : ℚ :=
      if s.current_fps = 0 then new_fps
      else (1/10) * new_fps + (1 - 1/10) * s.current_fps
    { p with
      video_frame_queue := p.video_frame_queue ++ [frame]
      video_stats := { frames_received := s.frames_received + 1
                       frames_dropped := s.frames_dropped
                       last_frame_time := now
                       current_fps := fps } }

/-- Deliver a sequence of timestamped video samples through the `on_frame`
callback. -/
def MediaPipeline.video_arrivals (p : MediaPipeline) : List (ℚ × Frame) → MediaPipeline
  | [] => p
  | (t, f) :: rest => (p.video_on_frame t f).video_arrivals rest

/-- `MediaPipeline.add_video_track` (registration effect; the installed
callback is `video_on_frame`). -/
def MediaPipeline.add_video_track (p : MediaPipeline) (track : Nat) : MediaPipeline :=
  { p with video_track := some track }

/-- `MediaPipeline.remove_video_track`. -/
def MediaPipeline.remove_video_track (p : MediaPipeline) (track : Nat) : MediaPipeline :=
  if p.video_track = some track then { p with video_track := none } else p

/-- `MediaPipeline.add_audio_track`: a no-op unless audio is enabled. -/
def MediaPipeline.add_audio_track (p : MediaPipeline) (track : Nat) : MediaPipeline :=
  if p.config.AUDIO_ENABLED then { p with audio_track := some track } else p

/-- `MediaPipeline.remove_audio_track`: a no-op unless audio is enabled. -/
def MediaPipeline.remove_audio_track (p : MediaPipeline) (track : Nat) : MediaPipeline :=
  if p.config.AUDIO_ENABLED then
    (if p.audio_track = some track then { p with audio_track := none } else p)
  else p

/-- `task.cancel()` on an optional task reference: the referenced task is no
longer live. -/
def cancelTask (live : List Nat) : Option Nat → List Nat
  | some t => live.filter (fun x => x != t)
  | none => live

/-- `MediaPipeline.start` (lines 60-102).  Codec-context creation is the only
step of the body that can raise; `codecOk` says whether it succeeds.  On
success a fresh video processing task is created (and an audio one when audio
is enabled) and `running` is set. -/
def MediaPipeline.start (p : MediaPipeline) (codecOk : Bool) : MediaPipeline × Bool :=
  if codecOk then
    let vt := p.next_task
    let p1 := { p with video_task := some vt, live_tasks := vt :: p.live_tasks,
                       next_task := vt + 1 }
    let p2 :=
      if p.config.AUDIO_ENABLED then
        { p1 with audio_task := some p1.next_task,
                  live_tasks := p1.next_task :: p1.live_tasks,
                  next_task := p1.next_task + 1 }
      else p1
    ({ p2 with running := true }, true)
  else (p, false)

/-- `MediaPipeline.stop` (lines 104-142): clear `running`, cancel the
referenced tasks, clear both queues, clear both track registrations.  The
task attributes themselves are not reset.  Nothing in the body can raise, so
it always returns `True`. -/
def MediaPipeline.stop (p : MediaPipeline) : MediaPipeline × Bool :=
  let live1 := cancelTask p.live_tasks p.video_task
  let live2 := cancelTask live1 p.audio_task
  ({ p with running := false
            live_tasks := live2
            video_frame_queue := []
            audio_sample_queue := []
            video_track := none
            audio_track := none }, true)

/-- Python `round(x, 1)`.  Python rounds half to even; this model rounds
half away from zero via Mathlib `round`, which agrees except at exact
half-ties, which no claim exercises. -/
def round1 (x : ℚ) : ℚ := (round (10 * x) : ℤ) / 10

/-- The `video` part of `MediaPipeline.get_status`. -/
structure VideoStatus where
  track_active : Bool
  frames_received : Nat
  frames_dropped : Nat
  fps : ℚ
  queue_size : Nat
deriving DecidableEq

/-- The `audio` part of `MediaPipeline.get_status`. -/
structure AudioStatus where
  enabled : Bool
  track_active : Bool
  samples_received : Nat
  samples_dropped : Nat
  queue_size : Nat
deriving DecidableEq

/-- Return value of `MediaPipeline.get_status`. -/
structure PipelineStatus where
  running : Bool
  video : VideoStatus
  audio : AudioStatus
deriving DecidableEq

/-- `MediaPipeline.get_status` (lines 330-348). -/
def MediaPipeline.get_status (p : MediaPipeline) : PipelineStatus where
  running := p.running
  video := { track_active := p.video_track.isSome
             frames_received := p.video_stats.frames_received
             frames_dropped := p.video_stats.frames_dropped
             fps := round1 p.video_stats.current_fps
             queue_size := p.video_frame_queue.length }
  audio := { enabled := p.config.AUDIO_ENABLED
             track_active := if p.config.AUDIO_ENABLED then p.audio_track.isSome else false
             samples_received := if p.config.AUDIO_ENABLED then p.audio_stats.samples_received else 0
             samples_dropped := if p.config.AUDIO_ENABLED then p.audio_stats.samples_dropped else 0
             queue_size := if p.config.AUDIO_ENABLED then p.audio_sample_queue.length else 0 }

/-- The instantaneous rate `1/dt` (0 when `dt` is not positive), as computed
by `on_frame` line 169. -/
def instRate (dt : ℚ) : ℚ := if 0 < dt then 1 / dt else 0

/-- The exponential-moving-average recurrence of the specification,
`smoothed = 0.1 * instant + 0.9 * smoothed`, folded over a list of
inter-arrival deltas from seed `s`. -/
def emaFold (s : ℚ) : List ℚ → ℚ
  | [] => s
  | d :: ds => emaFold ((1/10) * instRate d + (1 - 1/10) * s) ds

/-- Successive differences `t - prev` of a timestamp list against the
previous timestamp. -/
def deltas : ℚ → List ℚ → List ℚ
  | _, [] => []
  | prev, t :: ts => (t - prev) :: deltas t ts

/-- An open write-capable device handle.  `closeFails`/`writeFails` model
whether `close()`/`write()` raises, `written` logs the payloads successfully
written through the handle. -/
structure DeviceHandle where
  closeFails : Bool := false
  writeFails : Bool := false
  written : List Nat := []
deriving DecidableEq

/-- State of `USBGadget` (src/modules/usb_gadget.py).  `unbind_writes` counts
the empty-string writes to the `UDC` attribute performed by
`_disable_gadget`. -/
structure USBGadget where
  config : Config
  video_device : Option DeviceHandle
  audio_device : Option DeviceHandle
  running : Bool
  gadget_configured : Bool
  unbind_writes : Nat
deriving DecidableEq

/-- `USBGadget.__init__`. -/
def USBGadget.init (config : Config) : USBGadget where
  config := config
  video_device := none
  audio_device := none
  running := false
  gadget_configured := false
  unbind_writes := 0

/-- `USBGadget._disable_gadget`: write an empty binding to the `UDC`
attribute; on a raised write error the exception is caught and `False`
returned.  `writeOk` says whether the write succeeds. -/
def USBGadget._disable_gadget (g : USBGadget) (writeOk : Bool) : USBGadget × Bool :=
  if writeOk then ({ g with unbind_writes := g.unbind_writes + 1 }, true)
  else (g, false)

/-- Tail of `USBGadget.stop` after both close attempts succeeded: unbind only
when this process configured the gadget and runs as root, then clear
`running`. -/
def USBGadget.stopTail (g : USBGadget) (euid : Nat) (unbindOk : Bool) : USBGadget × Bool :=
  let g1 := if g.gadget_configured ∧ euid = 0 then (g._disable_gadget unbindOk).1 else g
  ({ g1 with running := false }, true)

/-- `USBGadget.stop` after the video-device close (lines 79-93): close the
audio device if open, then the tail.  A raised `close()` lands in the
method's single outer `except`, which returns `False` with no further
teardown. -/
def USBGadget.stopAfterVideo (g : USBGadget) (euid : Nat) (unbindOk : Bool) : USBGadget × Bool :=
  match g.audio_device with
  | some h =>
      if h.closeFails then (g, false)
      else USBGadget.stopTail { g with audio_device := none } euid unbindOk
  | none => USBGadget.stopTail g euid unbindOk

/-- `USBGadget.stop` (lines 69-93): close video then audio handles, then
conditionally unbind; any raised exception is caught by the outer `except`
and reported as `False` (close attempts made after the raise never happen). -/
def USBGadget.stop (g : USBGadget) (euid : Nat) (unbindOk : Bool) : USBGadget × Bool :=
  match g.video_device with
  | some h =>
      if h.closeFails then (g, false)
      else USBGadget.stopAfterVideo { g with video_device := none } euid unbindOk
  | none => USBGadget.stopAfterVideo g euid unbindOk

/-- Outcome of probing one `/dev/video{i}` candidate inside
`USBGadget._open_devices`: the path does not exist, `open()` raises, the
`VIDIOC_QUERYCAP` ioctl raises, or the query succeeds reporting this card
name. -/
inductive ProbeResult
  | absent
  | openFails
  | unqueryable
  | card (name : String)
deriving DecidableEq

/-- Python `s.startswith(pre)`: `pre` is a prefix of `s` (structural, so it
evaluates in the kernel). -/
def pyStartsWith (s pre : String) : Bool := pre.data.isPrefixOf s.data

/-- The slot `self.video_device` plus the set of opened-and-not-closed file
handles (identified by candidate index) during a video scan. -/
structure ScanState where
  video_device : Option Nat
  openHandles : List Nat
deriving DecidableEq

/-- The inner video-candidate loop of `USBGadget._open_devices`
(lines 277-297).  For each candidate that exists and opens, the handle is
assigned to `self.video_device` (the previous slot value is overwritten
without being closed); an unqueryable candidate is closed and the slot
cleared; a queryable candidate matching `UVC_DEVICE_NAME` breaks with
success; a queryable non-matching candidate is merely passed over, its handle
left open in the slot. -/
def scanVideo (uvc : String) : List (Nat × ProbeResult) → ScanState → Bool × ScanState
  | [], st => (false, st)
  | (i, pr) :: rest, st =>
    match pr with
    | .absent => scanVideo uvc rest st
    | .openFails => scanVideo uvc rest st
    | .unqueryable =>
        scanVideo uvc rest { video_device := none, openHandles := ((i :: st.openHandles).erase i) }
    | .card name =>
        if pyStartsWith name uvc then
          (true, { video_device := some i, openHandles := i :: st.openHandles })
        else
          scanVideo uvc rest { video_device := some i, openHandles := i :: st.openHandles }

/-- One `/dev/video{i}` or `/dev/snd/pcmC{i}D0p` candidate as seen by
`_find_existing_gadgets`: whether the path exists, whether `open()` succeeds,
and the resulting handle. -/
structure NodeProbe where
  pathExists : Bool
  openOk : Bool
  handle : DeviceHandle := {}
deriving DecidableEq

/-- The candidate loops of `USBGadget._find_existing_gadgets`: take the first
candidate whose path exists and whose `open()` succeeds. -/
def findFirstOpenable : List NodeProbe → Option DeviceHandle
  | [] => none
  | pr :: rest => if pr.pathExists && pr.openOk then some pr.handle else findFirstOpenable rest

/-- `USBGadget._find_existing_gadgets` (lines 95-124): assign the first
openable existing video and audio nodes (leaving a slot untouched when none
is found) and report whether a video device is held. -/
def USBGadget._find_existing_gadgets (g : USBGadget)
    (videoProbes audioProbes : List NodeProbe) : USBGadget × Bool :=
  let g1 :=
    match findFirstOpenable videoProbes with
    | some h => { g with video_device := some h }
    | none => g
  let g2 :=
    match findFirstOpenable audioProbes with
    | some h => { g1 with audio_device := some h }
    | none => g1
  (g2, g2.video_device.isSome)

/-- The non-root branch of `USBGadget.start` (lines 32-36): when
`os.geteuid() != 0`, set `running` from `_find_existing_gadgets` and return
it. -/
def USBGadget.start_fallback (g : USBGadget)
    (videoProbes audioProbes : List NodeProbe) : USBGadget × Bool :=
  let r := g._find_existing_gadgets videoProbes audioProbes
  ({ r.1 with running := r.2 }, r.2)

/-- `USBGadget.write_video_frame` (lines 331-342): refuse when not running or
no handle; a raised `write()` is caught and reported as `False`; a
successful write appends the payload. -/
def USBGadget.write_video_frame (g : USBGadget) (frame_data : Nat) : USBGadget × Bool :=
  if g.running = false then (g, false)
  else
    match g.video_device with
    | none => (g, false)
    | some h =>
        if h.writeFails then (g, false)
        else ({ g with video_device := some { h with written := h.written ++ [frame_data] } }, true)

/-- `USBGadget.write_audio_sample` (lines 344-355): additionally refuses when
audio is disabled in configuration. -/
def USBGadget.write_audio_sample (g : USBGadget) (audio_data : Nat) : USBGadget × Bool :=
  if g.running = false then (g, false)
  else
    match g.audio_device with
    | none => (g, false)
    | some h =>
        if g.config.AUDIO_ENABLED = false then (g, false)
        else if h.writeFails then (g, false)
        else ({ g with audio_device := some { h with written := h.written ++ [audio_data] } }, true)

/-- One iteration body of `MediaPipeline._process_video` for a dequeued
sample (lines 237-266): a conversion/encode failure is logged and produces no
packets; otherwise every produced packet is written through the gadget sink,
collecting each write's reported result. -/
def processVideoStep (g : USBGadget) (f : Frame) : USBGadget × List Bool :=
  if f.convertOk then
    f.packets.foldl
      (fun acc pkt =>
        let r := USBGadget.write_video_frame acc.1 pkt
        (r.1, acc.2 ++ [r.2]))
      (g, [])
  else (g, [])

/-- `MediaPipeline._process_video` run over the queued samples: each is
dequeued and processed in arrival order regardless of per-sample conversion
or write failures; returns the final gadget state and the number of samples
processed. -/
def processVideoQueue (g : USBGadget) : List Frame → USBGadget × Nat
  | [] => (g, 0)
  | f :: rest =>
    let r := processVideoStep g f
    let r2 := processVideoQueue r.1 rest
    (r2.1, r2.2 + 1)

/-! ## Basic facts about the video `on_frame` callback -/

theorem video_on_frame_config (p : MediaPipeline) (t : ℚ) (f : Frame) :
    (p.video_on_frame t f).config = p.config := by
  unfold MediaPipeline.video_on_frame
  split <;> rfl

theorem video_on_frame_count (p : MediaPipeline) (t : ℚ) (f : Frame) :
    (p.video_on_frame t f).video_stats.frames_dropped
      + (p.video_on_frame t f).video_stats.frames_received
    = p.video_stats.frames_dropped + p.video_stats.frames_received + 1 := by
  unfold MediaPipeline.video_on_frame
  split <;> (simp; try omega)

theorem video_on_frame_growth (p : MediaPipeline) (t : ℚ) (f : Frame) :
    (p.video_on_frame t f).video_frame_queue.length + p.video_stats.frames_received
      = p.video_frame_queue.length + (p.video_on_frame t f).video_stats.frames_received := by
  unfold MediaPipeline.video_on_frame
  split <;> (simp; try omega)

theorem video_on_frame_len_le (p : MediaPipeline) (t : ℚ) (f : Frame) (cap : Nat)
    (hc : p.config.PIPELINE_BUFFER_SIZE = cap)
    (h : p.video_frame_queue.length ≤ cap) :
    (p.video_on_frame t f).video_frame_queue.length ≤ cap := by
  unfold MediaPipeline.video_on_frame
  split
  · simpa using h
  · rename_i hfull
    simp only [List.length_append, List.length_cons, List.length_nil]
    omega

theorem video_on_frame_full_step (q : MediaPipeline) (t : ℚ) (f : Frame)
    (h : q.config.PIPELINE_BUFFER_SIZE ≤ q.video_frame_queue.length) :
    (q.video_on_frame t f).video_frame_queue = q.video_frame_queue
    ∧ (q.video_on_frame t f).video_stats.frames_dropped = q.video_stats.frames_dropped + 1
    ∧ (q.video_on_frame t f).video_stats.frames_received = q.video_stats.frames_received := by
  unfold MediaPipeline.video_on_frame
  rw [if_pos h]
  exact ⟨rfl, rfl, rfl⟩

/-! ## Facts about folding a whole arrival sequence -/

theorem video_arrivals_config (l : List (ℚ × Frame)) :
    ∀ p : MediaPipeline, (p.video_arrivals l).config = p.config := by
  induction l with
  | nil => intro p; rfl
  | cons a rest ih =>
      intro p
      obtain ⟨t, f⟩ := a
      simp only [MediaPipeline.video_arrivals]
      rw [ih, video_on_frame_config]

theorem video_arrivals_len_le (l : List (ℚ × Frame)) :
    ∀ (p : MediaPipeline) (cap : Nat),
      p.config.PIPELINE_BUFFER_SIZE = cap →
      p.video_frame_queue.length ≤ cap →
      (p.video_arrivals l).video_frame_queue.length ≤ cap := by
  induction l with
  | nil => intro p cap _ h; exact h
  | cons a rest ih =>
      intro p cap hc h
      obtain ⟨t, f⟩ := a
      simp only [MediaPipeline.video_arrivals]
      exact ih _ cap (by rw [video_on_frame_config]; exact hc)
        (video_on_frame_len_le p t f cap hc h)

theorem video_arrivals_count (l : List (ℚ × Frame)) :
    ∀ p : MediaPipeline,
      (p.video_arrivals l).video_stats.frames_dropped
        + (p.video_arrivals l).video_stats.frames_received
      = p.video_stats.frames_dropped + p.video_stats.frames_received + l.length := by
  induction l with
  | nil => intro p; simp [MediaPipeline.video_arrivals]
  | cons a rest ih =>
      intro p
      obtain ⟨t, f⟩ := a
      simp only [MediaPipeline.video_arrivals, List.length_cons]
      have h1 := ih (p.video_on_frame t f)
      have h2 := video_on_frame_count p t f
      omega

theorem video_arrivals_growth (l : List (ℚ × Frame)) :
    ∀ p : MediaPipeline,
      (p.video_arrivals l).video_frame_queue.length + p.video_stats.frames_received
        = p.video_frame_queue.length + (p.video_arrivals l).video_stats.frames_received := by
  induction l with
  | nil => intro p; rfl
  | cons a rest ih =>
      intro p
      obtain ⟨t, f⟩ := a
      simp only [MediaPipeline.video_arrivals]
      have h1 := ih (p.video_on_frame t f)
      have h2 := video_on_frame_growth p t f
      omega

/-- Claim C1: for every sequence of sample arrivals delivered via the
per-track `on_frame` callback, the ingestion queue's length never exceeds its
fixed capacity (`PIPELINE_BUFFER_SIZE`), an arrival while the queue is full
is rejected without being enqueued (the callback is a total function, so the
producer is never blocked), and the number of dropped-counter increments plus
the number of received-counter increments is exactly the number of arrivals,
with each received increment matching one enqueue — so the dropped counter
grows by exactly the number of rejected arrivals. -/
theorem c1_queue_bounded_and_drop_count
    (p0 : MediaPipeline) (arrivals : List (ℚ × Frame))
    (h0 : p0.video_frame_queue.length ≤ p0.config.PIPELINE_BUFFER_SIZE) :
    (∀ pre suf : List (ℚ × Frame), arrivals = pre ++ suf →
        (p0.video_arrivals pre).video_frame_queue.length ≤ p0.config.PIPELINE_BUFFER_SIZE)
    ∧ (∀ (q : MediaPipeline) (t : ℚ) (f : Frame),
        q.config.PIPELINE_BUFFER_SIZE ≤ q.video_frame_queue.length →
          (q.video_on_frame t f).video_frame_queue = q.video_frame_queue
          ∧ (q.video_on_frame t f).video_stats.frames_dropped
              = q.video_stats.frames_dropped + 1
          ∧ (q.video_on_frame t f).video_stats.frames_received
              = q.video_stats.frames_received)
    ∧ (p0.video_arrivals arrivals).video_stats.frames_dropped
        + (p0.video_arrivals arrivals).video_stats.frames_received
        = p0.video_stats.frames_dropped + p0.video_stats.frames_received + arrivals.length
    ∧ (p0.video_arrivals arrivals).video_frame_queue.length
        + p0.video_stats.frames_received
        = p0.video_frame_queue.length
        + (p0.video_arrivals arrivals).video_stats.frames_received := by
  refine ⟨?_, ?_, video_arrivals_count arrivals p0, video_arrivals_growth arrivals p0⟩
  · intro pre _ _
    exact video_arrivals_len_le pre p0 _ rfl h0
  · intro q t f h
    exact video_on_frame_full_step q t f h

/-- A capacity-2 configuration with audio disabled, used by concrete
evaluations. -/
def cfgW : Config := { PIPELINE_BUFFER_SIZE := 2, AUDIO_ENABLED := false }

/-- The default configuration of `src/config.py`. -/
def cfgA : Config := {}

/-- A concrete sample. -/
def frameW : Frame := {}

/-- Three timestamped arrivals into a capacity-2 pipeline. -/
def arrivalsW : List (ℚ × Frame) := [(1, frameW), (2, frameW), (3, frameW)]

/-- Witness for C1: three arrivals into an empty capacity-2 queue drop
exactly one sample, and the counters add up per the theorem. -/
theorem c1_witness :
    ((MediaPipeline.init cfgW).video_arrivals arrivalsW).video_stats.frames_dropped = 1
    ∧ ((MediaPipeline.init cfgW).video_arrivals arrivalsW).video_stats.frames_dropped
        + ((MediaPipeline.init cfgW).video_arrivals arrivalsW).video_stats.frames_received
      = (MediaPipeline.init cfgW).video_stats.frames_dropped
        + (MediaPipeline.init cfgW).video_stats.frames_received + arrivalsW.length :=
  ⟨by decide, (c1_queue_bounded_and_drop_count (MediaPipeline.init cfgW) arrivalsW
      (by decide)).2.2.1⟩

/-! ## The smoothed-fps recurrence -/

theorem instRate_nonneg (dt : ℚ) : 0 ≤ instRate dt := by
  unfold instRate
  split
  · positivity
  · exact le_refl 0

theorem video_on_frame_accept_facts (p : MediaPipeline) (t : ℚ) (f : Frame)
    (hlen : p.video_frame_queue.length < p.config.PIPELINE_BUFFER_SIZE)
    (hlast : 0 < p.video_stats.last_frame_time)
    (hfps : p.video_stats.current_fps ≠ 0) :
    (p.video_on_frame t f).video_stats.current_fps
        = (1/10) * instRate (t - p.video_stats.last_frame_time)
          + (1 - 1/10) * p.video_stats.current_fps
    ∧ (p.video_on_frame t f).video_stats.last_frame_time = t
    ∧ (p.video_on_frame t f).video_frame_queue.length = p.video_frame_queue.length + 1 := by
  unfold MediaPipeline.video_on_frame instRate
  rw [if_neg (by omega)]
  refine ⟨?_, rfl, by simp⟩
  simp only [if_pos hlast, if_neg hfps]

theorem video_on_frame_first (cfg : Config) (t : ℚ) (f : Frame)
    (hcap : 0 < cfg.PIPELINE_BUFFER_SIZE) :
    ((MediaPipeline.init cfg).video_on_frame t f).video_stats.current_fps = 1
    ∧ ((MediaPipeline.init cfg).video_on_frame t f).video_stats.last_frame_time = t
    ∧ ((MediaPipeline.init cfg).video_on_frame t f).video_frame_queue.length = 1 := by
  unfold MediaPipeline.init MediaPipeline.video_on_frame
  rw [if_neg (by simp only [List.length_nil, Nat.le_zero]; omega)]
  norm_num

theorem video_arrivals_fps_ema (rest : List ℚ) :
    ∀ (p : MediaPipeline) (f : Frame),
      (∀ t ∈ rest, 0 < t) →
      0 < p.video_stats.last_frame_time →
      0 < p.video_stats.current_fps →
      p.video_frame_queue.length + rest.length ≤ p.config.PIPELINE_BUFFER_SIZE →
      (p.video_arrivals (rest.map (fun t => (t, f)))).video_stats.current_fps
        = emaFold p.video_stats.current_fps (deltas p.video_stats.last_frame_time rest) := by
  induction rest with
  | nil => intro p f _ _ _ _; rfl
  | cons t rest ih =>
      intro p f hpos hlast hfps hcap
      simp only [List.map_cons, MediaPipeline.video_arrivals, List.length_cons] at *
      have hstep := video_on_frame_accept_facts p t f (by omega) hlast (ne_of_gt hfps)
      have hcfg := video_on_frame_config p t f
      have hfps' : 0 < (p.video_on_frame t f).video_stats.current_fps := by
        rw [hstep.1]
        have h1 : 0 ≤ (1/10 : ℚ) * instRate (t - p.video_stats.last_frame_time) :=
          mul_nonneg (by norm_num) (instRate_nonneg _)
        have h2 : 0 < (1 - 1/10 : ℚ) * p.video_stats.current_fps :=
          mul_pos (by norm_num) hfps
        linarith
      have hlast' : 0 < (p.video_on_frame t f).video_stats.last_frame_time := by
        rw [hstep.2.1]; exact hpos t (List.mem_cons_self t rest)
      have hcap' : (p.video_on_frame t f).video_frame_queue.length + rest.length
          ≤ (p.video_on_frame t f).config.PIPELINE_BUFFER_SIZE := by
        rw [hstep.2.2, hcfg]; omega
      have := ih (p.video_on_frame t f) f (fun x hx => hpos x (List.mem_cons_of_mem _ hx)) hlast' hfps' hcap'
      rw [this, hstep.1, hstep.2.1]
      simp [deltas, emaFold]

/-- Claim C2: for every sequence of successful video-frame enqueues at
positive timestamps `t1 :: rest` (all accepted because the sequence fits the
buffer capacity), the exposed smoothed rate equals the exponential moving
average recurrence `smoothed = 0.1 * instant + 0.9 * smoothed` with
`instant = 1/dt` (0 when `dt ≤ 0`) folded over the inter-arrival deltas,
seeded to the first instantaneous value `instRate 1` (the first arrival's
delta is forced to 1). -/
theorem c2_smoothed_fps_matches_ema (cfg : Config) (t1 : ℚ) (rest : List ℚ) (f : Frame)
    (hpos : ∀ t ∈ t1 :: rest, 0 < t)
    (hcap : (t1 :: rest).length ≤ cfg.PIPELINE_BUFFER_SIZE) :
    ((MediaPipeline.init cfg).video_arrivals
        ((t1 :: rest).map (fun t => (t, f)))).video_stats.current_fps
      = emaFold (instRate 1) (deltas t1 rest) := by
  simp only [List.map_cons, MediaPipeline.video_arrivals, List.length_cons] at *
  have hcap0 : 0 < cfg.PIPELINE_BUFFER_SIZE := by omega
  have hfirst := video_on_frame_first cfg t1 f hcap0
  have hcfg := video_on_frame_config (MediaPipeline.init cfg) t1 f
  have hrest := video_arrivals_fps_ema rest ((MediaPipeline.init cfg).video_on_frame t1 f) f
    (fun x hx => hpos x (List.mem_cons_of_mem _ hx))
    (by rw [hfirst.2.1]; exact hpos t1 (List.mem_cons_self t1 rest))
    (by rw [hfirst.1]; norm_num)
    (by rw [hfirst.2.2, hcfg]; show 1 + rest.length ≤ cfg.PIPELINE_BUFFER_SIZE; omega)
  rw [hrest, hfirst.1, hfirst.2.1]
  norm_num [instRate]

/-- Witness for C2: arrivals at times 1, 2, 4 in the default configuration. -/
theorem c2_witness :
    ((MediaPipeline.init cfgA).video_arrivals
        (([1, 2, 4] : List ℚ).map (fun t => (t, frameW)))).video_stats.current_fps
      = emaFold (instRate 1) (deltas 1 [2, 4]) :=
  c2_smoothed_fps_matches_ema cfgA 1 [2, 4] frameW (by decide) (by decide)

/-! ## Bridge start/stop lifecycle -/

theorem cancelTask_idem (l : List Nat) (o : Option Nat) :
    cancelTask (cancelTask l o) o = cancelTask l o := by
  cases o with
  | none => rfl
  | some t =>
      simp only [cancelTask, List.filter_filter]
      congr 1
      funext a
      exact Bool.and_self _

theorem cancelTask_comm (l : List Nat) (o o2 : Option Nat) :
    cancelTask (cancelTask l o) o2 = cancelTask (cancelTask l o2) o := by
  cases o with
  | none => rfl
  | some t =>
      cases o2 with
      | none => rfl
      | some u =>
          simp only [cancelTask, List.filter_filter]
          congr 1
          funext a
          exact Bool.and_comm _ _

theorem cancelTask_pair_idem (l : List Nat) (v a : Option Nat) :
    cancelTask (cancelTask (cancelTask (cancelTask l v) a) v) a
      = cancelTask (cancelTask l v) a := by
  rw [cancelTask_comm (cancelTask l v) a v, cancelTask_idem l v,
    cancelTask_idem (cancelTask l v) a]

/-- Counterexample for C4: starting an already-started bridge is not
effect-free — starting the freshly initialised capacity-2 pipeline twice
leaves two live video processing tasks, where a single `start()` leaves
one. -/
theorem c4_counterexample :
    (((MediaPipeline.init cfgW).start true).1.start true).1.live_tasks = [1, 0]
    ∧ ((MediaPipeline.init cfgW).start true).1.live_tasks = [0] := by decide

/-- Claim C4 (amended): `stop()` is idempotent (a second `stop()` leaves the
state unchanged) and always reports success; a repeated `start()` leaves the
`running` flag and return value the same as a single call, but it is not
effect-free: each call spawns fresh processing tasks (one per enabled media
kind), so the already-running guard the claim describes does not exist.
Neither call raises (both are total functions reporting a boolean). -/
theorem c4_amended_idempotency (p : MediaPipeline) :
    ((p.stop).1.stop).1 = (p.stop).1
    ∧ (p.stop).2 = true
    ∧ (((p.start true).1.start true).1).running = ((p.start true).1).running
    ∧ ((p.start true).1.start true).2 = ((p.start true).2)
    ∧ (((p.start true).1.start true).1).live_tasks.length
        = ((p.start true).1).live_tasks.length
          + (if p.config.AUDIO_ENABLED then 2 else 1) := by
  refine ⟨?_, rfl, ?_, ?_, ?_⟩
  · simp only [MediaPipeline.stop]
    apply MediaPipeline.ext <;> simp [cancelTask_pair_idem]
  · by_cases h : p.config.AUDIO_ENABLED <;> simp [MediaPipeline.start, h]
  · by_cases h : p.config.AUDIO_ENABLED <;> simp [MediaPipeline.start, h]
  · by_cases h : p.config.AUDIO_ENABLED <;> simp [MediaPipeline.start, h]

/-- Claim C5: after `stop()` both ingestion queues are empty and both track
registrations are cleared, while the received/dropped counters and smoothed
rate (the stats dictionaries) are untouched by `stop()`, and they also
survive a full stop/start/stop cycle. -/
theorem c5_stop_drains_queues_preserves_stats (p : MediaPipeline) (codecOk : Bool) :
    ((p.stop).1).video_frame_queue = []
    ∧ ((p.stop).1).audio_sample_queue = []
    ∧ ((p.stop).1).video_track = none
    ∧ ((p.stop).1).audio_track = none
    ∧ ((p.stop).1).video_stats = p.video_stats
    ∧ ((p.stop).1).audio_stats = p.audio_stats
    ∧ ((((p.stop).1.start codecOk).1.stop).1).video_stats = p.video_stats
    ∧ ((((p.stop).1.start codecOk).1.stop).1).audio_stats = p.audio_stats := by
  cases codecOk <;> by_cases h : p.config.AUDIO_ENABLED <;>
    simp [MediaPipeline.stop, MediaPipeline.start, h]

/-- Claim C8: for either media kind, detaching with a source handle different
from the currently attached one leaves the whole bridge state unchanged,
while detaching with the currently attached source clears exactly that
registration.  (For the audio kind the hypothesis records the run-time
invariant that an audio track can only be attached while audio is enabled.) -/
theorem c8_detach_only_if_matching (p : MediaPipeline) (x y : Nat)
    (hxy : y ≠ x)
    (haud : p.config.AUDIO_ENABLED = true ∨ p.audio_track = none) :
    (p.video_track = some y → p.remove_video_track x = p)
    ∧ (p.video_track = some x →
        p.remove_video_track x = { p with video_track := none })
    ∧ (p.audio_track = some y → p.remove_audio_track x = p)
    ∧ (p.audio_track = some x →
        p.remove_audio_track x = { p with audio_track := none }) := by
  refine ⟨?_, ?_, ?_, ?_⟩
  · intro h
    simp [MediaPipeline.remove_video_track, h, hxy]
  · intro h
    simp [MediaPipeline.remove_video_track, h]
  · intro h
    by_cases hA : p.config.AUDIO_ENABLED <;>
      simp [MediaPipeline.remove_audio_track, hA, h, hxy]
  · intro h
    rcases haud with hA | hnone
    · simp [MediaPipeline.remove_audio_track, hA, h]
    · rw [h] at hnone
      exact absurd hnone (by simp)

/-- A pipeline with both tracks attached, for concrete evaluation. -/
def pTracks : MediaPipeline :=
  { MediaPipeline.init cfgA with video_track := some 5, audio_track := some 5 }

/-- Witness for C8: on a pipeline with source 5 attached for both kinds,
detaching source 7 is a no-op for both kinds, and detaching source 5 clears
the video registration. -/
theorem c8_witness :
    pTracks.remove_video_track 7 = pTracks
    ∧ pTracks.remove_audio_track 7 = pTracks
    ∧ pTracks.remove_video_track 5 = { pTracks with video_track := none } :=
  ⟨(c8_detach_only_if_matching pTracks 7 5 (by decide) (Or.inl rfl)).1 rfl,
   (c8_detach_only_if_matching pTracks 7 5 (by decide) (Or.inl rfl)).2.2.1 rfl,
   (c8_detach_only_if_matching pTracks 5 7 (by decide) (Or.inl rfl)).2.1 rfl⟩


/-! ## Gadget teardown -/

theorem stopTail_facts (g : USBGadget) (euid : Nat) (u : Bool) :
    (g.stopTail euid u).1.video_device = g.video_device
    ∧ (g.stopTail euid u).1.audio_device = g.audio_device
    ∧ (g.stopTail euid u).1.running = false
    ∧ (g.stopTail euid u).2 = true
    ∧ ((g.stopTail euid u).1.unbind_writes ≠ g.unbind_writes
        ↔ g.gadget_configured = true ∧ euid = 0 ∧ u = true) := by
  unfold USBGadget.stopTail USBGadget._disable_gadget
  by_cases hc : g.gadget_configured = true ∧ euid = 0
  · rw [if_pos hc]
    cases u
    · refine ⟨rfl, rfl, rfl, rfl, ?_⟩
      show g.unbind_writes ≠ g.unbind_writes ↔ _
      constructor
      · intro hne
        exact absurd rfl hne
      · rintro ⟨-, -, h3⟩
        cases h3
    · refine ⟨rfl, rfl, rfl, rfl, ?_⟩
      show g.unbind_writes + 1 ≠ g.unbind_writes ↔ _
      constructor
      · intro _
        exact ⟨hc.1, hc.2, rfl⟩
      · intro _
        omega
  · rw [if_neg hc]
    refine ⟨rfl, rfl, rfl, rfl, ?_⟩
    show g.unbind_writes ≠ g.unbind_writes ↔ _
    constructor
    · intro hne
      exact absurd rfl hne
    · intro hx
      exact absurd ⟨hx.1, hx.2.1⟩ hc

theorem stopAfterVideo_audio_none (g : USBGadget) (euid : Nat) (u : Bool)
    (h : g.audio_device = none) :
    g.stopAfterVideo euid u = g.stopTail euid u := by
  unfold USBGadget.stopAfterVideo
  rw [h]

theorem stopAfterVideo_audio_ok (g : USBGadget) (euid : Nat) (u : Bool) (h2 : DeviceHandle)
    (h : g.audio_device = some h2) (hcf : h2.closeFails = false) :
    g.stopAfterVideo euid u = USBGadget.stopTail { g with audio_device := none } euid u := by
  unfold USBGadget.stopAfterVideo
  rw [h]
  show (if h2.closeFails = true then (g, false)
        else USBGadget.stopTail { g with audio_device := none } euid u) = _
  rw [hcf]
  simp

theorem stopAfterVideo_audio_fail (g : USBGadget) (euid : Nat) (u : Bool) (h2 : DeviceHandle)
    (h : g.audio_device = some h2) (hcf : h2.closeFails = true) :
    g.stopAfterVideo euid u = (g, false) := by
  unfold USBGadget.stopAfterVideo
  rw [h]
  show (if h2.closeFails = true then (g, false)
        else USBGadget.stopTail { g with audio_device := none } euid u) = _
  rw [hcf]
  simp

theorem stop_video_none (g : USBGadget) (euid : Nat) (u : Bool)
    (h : g.video_device = none) :
    g.stop euid u = g.stopAfterVideo euid u := by
  unfold USBGadget.stop
  rw [h]

theorem stop_video_ok (g : USBGadget) (euid : Nat) (u : Bool) (hd : DeviceHandle)
    (h : g.video_device = some hd) (hcf : hd.closeFails = false) :
    g.stop euid u = USBGadget.stopAfterVideo { g with video_device := none } euid u := by
  unfold USBGadget.stop
  rw [h]
  show (if hd.closeFails = true then (g, false)
        else USBGadget.stopAfterVideo { g with video_device := none } euid u) = _
  rw [hcf]
  simp

theorem stop_video_fail (g : USBGadget) (euid : Nat) (u : Bool) (hd : DeviceHandle)
    (h : g.video_device = some hd) (hcf : hd.closeFails = true) :
    g.stop euid u = (g, false) := by
  unfold USBGadget.stop
  rw [h]
  show (if hd.closeFails = true then (g, false)
        else USBGadget.stopAfterVideo { g with video_device := none } euid u) = _
  rw [hcf]
  simp

/-- A device handle whose `close()` raises. -/
def hBad : DeviceHandle := { closeFails := true }

/-- A well-behaved device handle. -/
def hGood : DeviceHandle := {}

/-- A configured, running gadget whose video handle's close raises while the
audio handle is healthy. -/
def gC7 : USBGadget :=
  { config := cfgA, video_device := some hBad, audio_device := some hGood,
    running := true, gadget_configured := true, unbind_writes := 0 }

/-- Counterexample for C7: when the video handle's `close()` raises, `stop()`
does not close the audio handle (it stays open), performs no unbind even
though provisioning completed and the process is root, and leaves `running`
set — refuting that every open handle is closed even when one close fails. -/
theorem c7_counterexample :
    (gC7.stop 0 true).1.audio_device = some hGood
    ∧ (gC7.stop 0 true).1.running = true
    ∧ (gC7.stop 0 true).1.unbind_writes = 0
    ∧ (gC7.stop 0 true).2 = false := by decide

/-- Claim C7 (amended): `stop()` never raises (it is total, reporting a
boolean).  When no handle close raises it closes both handles, clears
`running`, reports success, and writes the empty controller binding exactly
when provisioning had completed, the process is root, and the binding write
succeeds.  Teardown is, however, not per-handle best-effort: a raising
video-handle close aborts via the single outer `except`, leaving the audio
handle open, the `running` flag and binding untouched, and reporting failure.
In every case the unbind write happens only if provisioning had completed and
the process holds root privilege. -/
theorem c7_amended_stop_teardown (g : USBGadget) (euid : Nat) (u : Bool) :
    ((∀ h, g.video_device = some h → h.closeFails = false) →
     (∀ h, g.audio_device = some h → h.closeFails = false) →
       (g.stop euid u).1.video_device = none
       ∧ (g.stop euid u).1.audio_device = none
       ∧ (g.stop euid u).1.running = false
       ∧ (g.stop euid u).2 = true
       ∧ ((g.stop euid u).1.unbind_writes ≠ g.unbind_writes
            ↔ g.gadget_configured = true ∧ euid = 0 ∧ u = true))
    ∧ (∀ h, g.video_device = some h → h.closeFails = true →
        (g.stop euid u).1 = g ∧ (g.stop euid u).2 = false)
    ∧ ((g.stop euid u).1.unbind_writes ≠ g.unbind_writes →
        g.gadget_configured = true ∧ euid = 0) := by
  refine ⟨?_, ?_, ?_⟩
  · intro hv ha
    cases hdv : g.video_device with
    | none =>
        rw [stop_video_none g euid u hdv]
        cases hda : g.audio_device with
        | none =>
            rw [stopAfterVideo_audio_none g euid u hda]
            have hf := stopTail_facts g euid u
            exact ⟨hf.1.trans hdv, hf.2.1.trans hda, hf.2.2⟩
        | some h2 =>
            rw [stopAfterVideo_audio_ok g euid u h2 hda (ha h2 hda)]
            have hf := stopTail_facts { g with audio_device := none } euid u
            exact ⟨hf.1.trans hdv, hf.2.1, hf.2.2⟩
    | some hd =>
        rw [stop_video_ok g euid u hd hdv (hv hd hdv)]
        cases hda : g.audio_device with
        | none =>
            rw [stopAfterVideo_audio_none
              { g with video_device := none, audio_device := none } euid u rfl]
            have hf := stopTail_facts
              { g with video_device := none, audio_device := none } euid u
            exact ⟨hf.1, hf.2.1, hf.2.2⟩
        | some h2 =>
            rw [stopAfterVideo_audio_ok
              { g with video_device := none, audio_device := some h2 } euid u h2 rfl
              (ha h2 hda)]
            have hf := stopTail_facts
              { g with video_device := none, audio_device := none } euid u
            exact ⟨hf.1, hf.2.1, hf.2.2⟩
  · intro hd hdv hfail
    rw [stop_video_fail g euid u hd hdv hfail]
    exact ⟨rfl, rfl⟩
  · intro hch
    cases hdv : g.video_device with
    | none =>
        rw [stop_video_none g euid u hdv] at hch
        cases hda : g.audio_device with
        | none =>
            rw [stopAfterVideo_audio_none g euid u hda] at hch
            have hf := ((stopTail_facts g euid u).2.2.2.2).mp hch
            exact ⟨hf.1, hf.2.1⟩
        | some h2 =>
            by_cases hcf : h2.closeFails = true
            · rw [stopAfterVideo_audio_fail g euid u h2 hda hcf] at hch
              exact absurd rfl hch
            · rw [stopAfterVideo_audio_ok g euid u h2 hda
                (by revert hcf; cases h2.closeFails <;> simp)] at hch
              have hf := ((stopTail_facts { g with audio_device := none }
                euid u).2.2.2.2).mp hch
              exact ⟨hf.1, hf.2.1⟩
    | some hd =>
        by_cases hfail : hd.closeFails = true
        · rw [stop_video_fail g euid u hd hdv hfail] at hch
          exact absurd rfl hch
        · rw [stop_video_ok g euid u hd hdv
            (by revert hfail; cases hd.closeFails <;> simp)] at hch
          cases hda : g.audio_device with
          | none =>
              rw [stopAfterVideo_audio_none { g with video_device := none } euid u hda] at hch
              have hf := ((stopTail_facts { g with video_device := none }
                euid u).2.2.2.2).mp hch
              exact ⟨hf.1, hf.2.1⟩
          | some h2 =>
              by_cases hcf : h2.closeFails = true
              · rw [stopAfterVideo_audio_fail { g with video_device := none }
                  euid u h2 hda hcf] at hch
                exact absurd rfl hch
              · rw [stopAfterVideo_audio_ok { g with video_device := none } euid u h2 hda
                  (by revert hcf; cases h2.closeFails <;> simp)] at hch
                have hf := ((stopTail_facts
                  { g with video_device := none, audio_device := none }
                  euid u).2.2.2.2).mp hch
                exact ⟨hf.1, hf.2.1⟩

/-- A healthy configured gadget with both devices open. -/
def gHealthy : USBGadget :=
  { config := cfgA, video_device := some hGood, audio_device := some hGood,
    running := true, gadget_configured := true, unbind_writes := 0 }

/-- Witness for C7 at a healthy configured root-privileged gadget: both
handles get closed and the empty binding is written. -/
theorem c7_witness :
    (gHealthy.stop 0 true).1.video_device = none
    ∧ (gHealthy.stop 0 true).1.audio_device = none
    ∧ (gHealthy.stop 0 true).1.unbind_writes ≠ gHealthy.unbind_writes := by
  have h := (c7_amended_stop_teardown gHealthy 0 true).1
    (by intro h hh; injection hh with e; rw [← e]; rfl)
    (by intro h hh; injection hh with e; rw [← e]; rfl)
  exact ⟨h.1, h.2.1, h.2.2.2.2.mpr ⟨rfl, rfl, rfl⟩⟩

/-! ## Privilege fallback and device writes -/

theorem findFirstOpenable_isSome (l : List NodeProbe) :
    (findFirstOpenable l).isSome = l.any (fun pr => pr.pathExists && pr.openOk) := by
  induction l with
  | nil => rfl
  | cons pr rest ih =>
      by_cases h : (pr.pathExists && pr.openOk) = true <;>
        simp [findFirstOpenable, h, ih]

/-- Claim C6: with insufficient privilege the lifecycle's `start()` takes the
discovery-only fallback, which succeeds (and marks the gadget running) if and
only if some candidate video node exists and opens; finding an audio node is
irrelevant to the outcome (the same result is obtained with no audio
candidates at all), and with no usable video candidate the fallback fails. -/
theorem c6_privilege_fallback (g : USBGadget) (vps aps : List NodeProbe)
    (hv : g.video_device = none) :
    ((g.start_fallback vps aps).2 = true
      ↔ vps.any (fun pr => pr.pathExists && pr.openOk) = true)
    ∧ (g.start_fallback vps aps).1.running = (g.start_fallback vps aps).2
    ∧ (g.start_fallback vps aps).2 = (g.start_fallback vps []).2 := by
  unfold USBGadget.start_fallback USBGadget._find_existing_gadgets
  have hs := findFirstOpenable_isSome vps
  cases hfv : findFirstOpenable vps with
  | none =>
      rw [hfv] at hs
      cases hfa : findFirstOpenable aps <;>
        simp_all [findFirstOpenable, hv]
  | some h =>
      rw [hfv] at hs
      cases hfa : findFirstOpenable aps <;>
        simp_all [findFirstOpenable]

/-- Concrete video candidates: the first path is missing, the second exists
but fails to open, the third opens. -/
def vpsW : List NodeProbe :=
  [{ pathExists := false, openOk := true }, { pathExists := true, openOk := false },
   { pathExists := true, openOk := true }]

/-- Witness for C6: on a fresh non-root gadget the fallback succeeds with
`vpsW` and no audio candidates, and fails with no usable video candidate. -/
theorem c6_witness :
    ((USBGadget.init cfgA).start_fallback vpsW []).2 = true
    ∧ ((USBGadget.init cfgA).start_fallback [] [{ pathExists := true, openOk := true }]).2
        ≠ true :=
  ⟨(c6_privilege_fallback (USBGadget.init cfgA) vpsW [] rfl).1.mpr (by decide),
   fun hcon => by
     have h := (c6_privilege_fallback (USBGadget.init cfgA) []
       [{ pathExists := true, openOk := true }] rfl).1.mp hcon
     exact absurd h (by decide)⟩

theorem processVideoQueue_length (fs : List Frame) :
    ∀ g : USBGadget, (processVideoQueue g fs).2 = fs.length := by
  induction fs with
  | nil => intro g; rfl
  | cons f rest ih =>
      intro g
      simp only [processVideoQueue, List.length_cons]
      rw [ih]

/-- Claim C9: a write attempted while the gadget is not running, without an
open handle, or whose underlying device write raises, reports failure by
returning `False` (the write operations are total functions — they never
raise), and the conversion pipeline dequeues and processes every queued
sample regardless of such failures. -/
theorem c9_write_failure_nonfatal (g : USBGadget) (d : Nat) (fs : List Frame) :
    (g.running = false → g.write_video_frame d = (g, false))
    ∧ (g.video_device = none → g.write_video_frame d = (g, false))
    ∧ (∀ h, g.video_device = some h → h.writeFails = true →
        g.write_video_frame d = (g, false))
    ∧ (g.running = false → g.write_audio_sample d = (g, false))
    ∧ (g.audio_device = none → g.write_audio_sample d = (g, false))
    ∧ (∀ h, g.audio_device = some h → h.writeFails = true →
        g.write_audio_sample d = (g, false))
    ∧ (processVideoQueue g fs).2 = fs.length := by
  refine ⟨?_, ?_, ?_, ?_, ?_, ?_, processVideoQueue_length fs g⟩
  · intro h
    simp [USBGadget.write_video_frame, h]
  · intro h
    by_cases hr : g.running = false <;> simp [USBGadget.write_video_frame, hr, h]
  · intro hdl h hw
    by_cases hr : g.running = false <;> simp [USBGadget.write_video_frame, hr, h, hw]
  · intro h
    simp [USBGadget.write_audio_sample, h]
  · intro h
    by_cases hr : g.running = false <;> simp [USBGadget.write_audio_sample, hr, h]
  · intro hdl h hw
    by_cases hr : g.running = false <;>
      by_cases hA : g.config.AUDIO_ENABLED = false <;>
        simp [USBGadget.write_audio_sample, hr, h, hw, hA]

/-- A stopped gadget still holding a healthy video handle. -/
def gIdle : USBGadget :=
  { config := cfgA, video_device := some hGood, audio_device := none,
    running := false, gadget_configured := false, unbind_writes := 0 }

/-- Two video samples, the first of which fails to convert. -/
def framesW : List Frame :=
  [{ data := 1, convertOk := false }, { data := 2, packets := [7] }]

/-- Witness for C9: a write on the idle gadget reports failure, and both
queued samples are still processed. -/
theorem c9_witness :
    gIdle.write_video_frame 9 = (gIdle, false)
    ∧ (processVideoQueue gIdle framesW).2 = framesW.length := by
  have h := c9_write_failure_nonfatal gIdle 9 framesW
  exact ⟨h.1 rfl, h.2.2.2.2.2.2⟩

/-! ## Video device discovery -/

/-- Whether a probe outcome is a successful capability query whose card name
matches the configured device name. -/
def isMatchingCard (uvc : String) : ProbeResult → Bool
  | .card name => pyStartsWith name uvc
  | _ => false

theorem scanVideo_found_matching (uvc : String) (ps : List (Nat × ProbeResult)) :
    ∀ st : ScanState,
      (scanVideo uvc ps st).1 = true →
      ∀ i, (scanVideo uvc ps st).2.video_device = some i →
        ps.any (fun c => c.1 == i && isMatchingCard uvc c.2) = true := by
  induction ps with
  | nil =>
      intro st hf
      simp [scanVideo] at hf
  | cons c rest ih =>
      intro st hf i hdev
      obtain ⟨j, pr⟩ := c
      cases pr with
      | absent =>
          simp only [scanVideo] at hf hdev
          have hrec := ih st hf i hdev
          simp only [List.any_cons, hrec, Bool.or_true]
      | openFails =>
          simp only [scanVideo] at hf hdev
          have hrec := ih st hf i hdev
          simp only [List.any_cons, hrec, Bool.or_true]
      | unqueryable =>
          simp only [scanVideo] at hf hdev
          have hrec := ih _ hf i hdev
          simp only [List.any_cons, hrec, Bool.or_true]
      | card name =>
          by_cases hm : pyStartsWith name uvc = true
          · simp [scanVideo, hm] at hdev
            subst hdev
            simp [List.any_cons, isMatchingCard, hm]
          · rw [Bool.not_eq_true] at hm
            simp [scanVideo, hm] at hf hdev
            have hrec := ih _ hf i hdev
            simp only [List.any_cons, hrec, Bool.or_true]

/-- Discovery scenario of the amended claim: the 1st candidate is
unqueryable, the 2nd reports a non-matching card name, the 3rd matches. -/
def probesC3 : List (Nat × ProbeResult) :=
  [(0, ProbeResult.unqueryable), (1, ProbeResult.card "Other Cam"),
   (2, ProbeResult.card "WebRTCam Video")]

/-- Three queryable candidates where only the 3rd card name matches. -/
def probesCex : List (Nat × ProbeResult) :=
  [(0, ProbeResult.card "Integrated Camera"), (1, ProbeResult.card "Other Cam"),
   (2, ProbeResult.card "WebRTCam Video")]

/-- Counterexample for C3: with three queryable candidates of which only the
3rd matches, the scan does return the 3rd node, but the handles opened for
the two non-matching queryable candidates are never closed — they remain in
the open-handle set, refuting "every non-matching or unqueryable candidate is
closed". -/
theorem c3_counterexample :
    (scanVideo "WebRTCam Video" probesCex
        { video_device := none, openHandles := [] }).1 = true
    ∧ (scanVideo "WebRTCam Video" probesCex
        { video_device := none, openHandles := [] }).2.video_device = some 2
    ∧ 0 ∈ (scanVideo "WebRTCam Video" probesCex
        { video_device := none, openHandles := [] }).2.openHandles
    ∧ 1 ∈ (scanVideo "WebRTCam Video" probesCex
        { video_device := none, openHandles := [] }).2.openHandles := by
  decide

/-- Claim C3 (amended): a candidate node is accepted as the video device only
if its capability query reports a card name matching the configured gadget
identity; unqueryable candidates are closed and skipped, and queryable
candidates with non-matching names are skipped for acceptance but their file
handles are left open (not closed).  In particular, when only the 3rd
candidate matches (1st unqueryable, 2nd non-matching), discovery returns the
3rd node, the unqueryable candidate's handle is closed, and the non-matching
candidate's handle leaks. -/
theorem c3_amended_discovery (uvc : String) (ps : List (Nat × ProbeResult))
    (st : ScanState)
    (hfound : (scanVideo uvc ps st).1 = true) :
    (∀ i, (scanVideo uvc ps st).2.video_device = some i →
        ps.any (fun c => c.1 == i && isMatchingCard uvc c.2) = true)
    ∧ scanVideo "WebRTCam Video" probesC3 { video_device := none, openHandles := [] }
        = (true, { video_device := some 2, openHandles := [2, 1] }) :=
  ⟨fun i h => scanVideo_found_matching uvc ps st hfound i h, by decide⟩

/-- Witness for C3 at the concrete scenario: the accepted index 2 indeed
carries a matching card name. -/
theorem c3_witness :
    probesC3.any (fun c => c.1 == 2 && isMatchingCard "WebRTCam Video" c.2) = true :=
  (c3_amended_discovery "WebRTCam Video" probesC3
    { video_device := none, openHandles := [] } (by decide)).1 2 (by decide)

/-! ## Audio disabled -/

/-- Claim C10: with audio disabled in configuration, attaching or detaching
an audio track leaves the bridge unchanged, writing an audio sample returns
`False` without touching any state, and the status query reports audio as
inactive with zero counts and zero queue depth regardless of the stored audio
state. -/
theorem c10_audio_disabled_noop (p : MediaPipeline) (g : USBGadget) (track d : Nat)
    (hp : p.config.AUDIO_ENABLED = false)
    (hg : g.config.AUDIO_ENABLED = false) :
    p.add_audio_track track = p
    ∧ p.remove_audio_track track = p
    ∧ g.write_audio_sample d = (g, false)
    ∧ (p.get_status).audio
        = { enabled := false, track_active := false, samples_received := 0,
            samples_dropped := 0, queue_size := 0 } := by
  refine ⟨?_, ?_, ?_, ?_⟩
  · simp [MediaPipeline.add_audio_track, hp]
  · simp [MediaPipeline.remove_audio_track, hp]
  · by_cases hr : g.running = false
    · simp [USBGadget.write_audio_sample, hr]
    · cases hd : g.audio_device with
      | none => simp [USBGadget.write_audio_sample, hr, hd]
      | some h => simp [USBGadget.write_audio_sample, hr, hd, hg]
  · simp [MediaPipeline.get_status, hp]

/-- An audio-disabled pipeline carrying stale audio state. -/
def pAudioJunk : MediaPipeline :=
  { MediaPipeline.init cfgW with
      audio_track := some 3,
      audio_sample_queue := [frameW],
      audio_stats := { samples_received := 4, samples_dropped := 2, last_sample_time := 9 } }

/-- An audio-disabled running gadget with an open audio handle. -/
def gAudioOff : USBGadget :=
  { config := cfgW, video_device := none, audio_device := some hGood,
    running := true, gadget_configured := false, unbind_writes := 0 }

/-- Witness for C10: the audio write fails without writing and the status
hides the stale audio state. -/
theorem c10_witness :
    gAudioOff.write_audio_sample 5 = (gAudioOff, false)
    ∧ (pAudioJunk.get_status).audio
        = { enabled := false, track_active := false, samples_received := 0,
            samples_dropped := 0, queue_size := 0 } := by
  have h := c10_audio_disabled_noop pAudioJunk gAudioOff 3 5 rfl rfl
  exact ⟨h.2.2.1, h.2.2.2⟩
